import Mathlib

/-!
Shallow embedding of the background-removal service
(`FastApi/utils.py`, `FastApi/utils1.py`, `FastApi/crud.py`,
`FastApi/models.py`).

Byte strings are `List Nat`.  The Python image library (PIL) and the
SciPy filters are impure external capabilities; they are modelled as an
oracle record `ImgLib` of functions, with fallible calls returning
`Except PyErr`.  A `PyErr` carries the Python exception's class name and
message, mirroring Python's class-based `except` dispatch
(`except UnidentifiedImageError` is a test on the class name).  The
segmentation capability (`rembg.remove`) is modelled as a function from
the bytes it is invoked on to an observed outcome `SegOutcome`: it may
return bytes, raise, run past the join budget (the thread is still alive
after `thread.join(timeout_seconds)`), or terminate having recorded
neither a result nor an error (the worker's `except Exception` does not
catch `BaseException`, leaving the shared dict empty — source line 205).
Wall-clock readings (`time.time()`, `round(..., 2)`) and
`traceback.format_exc()` are abstracted as parameters (`elapsed`, `tb`).
-/

/-- Python exception value: class name and message (`str(e)`). -/
structure PyErr where
  ty : String
  msg : String
deriving DecidableEq, Repr

/-- Decoded PIL image as the source observes it: `img.mode`, `img.size`,
`img.format`, plus abstract pixel content. -/
structure Img where
  mode : String
  width : Nat
  height : Nat
  format : String
  data : List Nat
deriving DecidableEq, Repr

/-- Oracle for the external image library.  `openImg` is
`Image.open(io.BytesIO(bytes))`, `verifyImg` is `img.verify()`,
`compositeWhite` is the RGBA-over-white paste of `preprocess_image`
lines 28-30, `convertRGB` is `img.convert(to RGB)`, `resizeImg` is the
LANCZOS downscale to a 1920-px bound (float ratio arithmetic is inside
the oracle), `enhanceContrast`/`enhanceSharpness` are the 1.2x / 1.1x
`ImageEnhance` calls, `refineAlpha` is the SciPy median-filter +
Gaussian-blur alpha cleanup of `postprocess_image` lines 69-87 (fallible:
the `scipy` import may raise), and `savePNG` is
`img.save(output, PNG, optimize)` followed by `output.getvalue()`. -/
structure ImgLib where
  openImg : List Nat → Except PyErr Img
  verifyImg : Img → Except PyErr Unit
  compositeWhite : Img → Img
  convertRGB : Img → Img
  resizeImg : Img → Except PyErr Img
  enhanceContrast : Img → Img
  enhanceSharpness : Img → Img
  refineAlpha : Img → Except PyErr Img
  savePNG : Img → Except PyErr (List Nat)

/-- Body of the `try:` block of `preprocess_image` (utils.py lines
22-51): open; composite RGBA over white or force RGB; downscale when the
larger dimension exceeds 1920; contrast then sharpness boost; re-encode
as PNG. -/
def preprocess_core (lib : ImgLib) (image_bytes : List Nat) : Except PyErr (List Nat) :=
  match lib.openImg image_bytes with
  | .error e => .error e
  | .ok img0 =>
    let img1 := if img0.mode = "RGBA" then lib.compositeWhite img0
                else if img0.mode = "RGB" then img0 else lib.convertRGB img0
    match (if 1920 < max img1.width img1.height then lib.resizeImg img1 else .ok img1) with
    | .error e => .error e
    | .ok img2 => lib.savePNG (lib.enhanceSharpness (lib.enhanceContrast img2))

/-- `preprocess_image` (utils.py lines 15-55): run the body; on any
internal error return the original bytes unchanged
(`except Exception: return image_bytes`). -/
def preprocess_image (lib : ImgLib) (image_bytes : List Nat) : List Nat :=
  match preprocess_core lib image_bytes with
  | .ok out => out
  | .error _ => image_bytes

/-- Body of the `try:` block of `postprocess_image` (utils.py lines
64-92): open; when the mode is RGBA refine the alpha channel; re-encode
as PNG.  The PNG re-encode happens on every successful path, also when
the image has no alpha channel. -/
def postprocess_core (lib : ImgLib) (result_bytes : List Nat) : Except PyErr (List Nat) :=
  match lib.openImg result_bytes with
  | .error e => .error e
  | .ok img =>
    match (if img.mode = "RGBA" then lib.refineAlpha img else .ok img) with
    | .error e => .error e
    | .ok img2 => lib.savePNG img2

/-- `postprocess_image` (utils.py lines 58-96): run the body; on any
internal error return the original bytes unchanged. -/
def postprocess_image (lib : ImgLib) (result_bytes : List Nat) : List Nat :=
  match postprocess_core lib result_bytes with
  | .ok out => out
  | .error _ => result_bytes

/-- Observed outcome of one invocation of the segmentation capability
under the bounded executor of `remove_bg_bytes`:
`returns out` — the worker finished within budget and stored
`result[data] = out`; `raises e` — the worker finished within budget
storing `result[error] = e`; `hangs` — `thread.is_alive()` still holds
after `thread.join(timeout_seconds)`; `neither` — the worker terminated
within budget leaving the shared dict empty. -/
inductive SegOutcome where
  | returns (out : List Nat)
  | raises (e : PyErr)
  | hangs
  | neither
deriving DecidableEq, Repr

/-- Value stored in the diagnostic map: Python puts strings and numbers
there. -/
inductive DiagValue where
  | vStr (s : String)
  | vNat (n : Nat)
deriving DecidableEq, Repr

/-- Structured response of `remove_bg_bytes`: the Python dict
`{status, message, data, diagnostic}`.  `data` is the payload bytes;
Python initialises it to an empty dict and failure paths leave it
untouched, modelled as the empty list. -/
structure Response where
  status : Bool
  message : String
  data : List Nat
  diagnostic : List (String × DiagValue)
deriving DecidableEq, Repr

/-- Lookup of a key in a diagnostic map. -/
def getDiag (d : List (String × DiagValue)) (k : String) : Option DiagValue :=
  match d with
  | [] => none
  | (k2, v) :: rest => if k2 = k then some v else getDiag rest k

/-- Budget of the bounded executor in `utils.py` (line 156). -/
def timeout_seconds : Nat := 30

/-- Budget of the bounded executor in `utils1.py` (line 66). -/
def timeout_seconds1 : Nat := 20

/-- `remove_bg_bytes` (utils.py lines 99-238).  `seg` is the
segmentation capability's behaviour as a function of the bytes it is
invoked on (the preprocessed bytes); `tb` stands for
`traceback.format_exc()`; `elapsed` for the rounded wall-clock reading
of the success path.  Step 1 validates the size (for Python bytes,
`not image_bytes or len < 50` is equivalent to `len < 50`, and
`len(image_bytes) if image_bytes else 0` always equals the length);
step 2 opens and verifies the image, dispatching on the exception class;
step 2.5 preprocesses; step 3 joins the worker with the budget and
dispatches on the observed outcome; step 3.5 postprocesses; step 4
builds the success response.  The trailing `except Exception` of the
source has no reachable raiser here, so the function is total by
construction: no exception crosses the boundary. -/
def remove_bg_bytes (lib : ImgLib) (seg : List Nat → SegOutcome) (tb : String)
    (elapsed : Nat) (image_bytes : List Nat) : Response :=
  if image_bytes.length < 50 then
    { status := false
      message := "Invalid or empty image data"
      data := []
      diagnostic := [("hint", .vStr "Ensure you\u0027re sending a valid image file."),
                     ("received_size_bytes", .vNat image_bytes.length)] }
  else
    match lib.openImg image_bytes with
    | .error e =>
      if e.ty = "UnidentifiedImageError" then
        { status := false
          message := "Unsupported or corrupted image format"
          data := []
          diagnostic := [("hint", .vStr "Image format not recognized. Try PNG or JPG."),
                         ("trace", .vStr tb)] }
      else
        { status := false
          message := "Image validation failed: " ++ e.msg
          data := []
          diagnostic := [("hint", .vStr "Image might be partially corrupted or truncated."),
                         ("trace", .vStr tb)] }
    | .ok img =>
      match lib.verifyImg img with
      | .error e =>
        if e.ty = "UnidentifiedImageError" then
          { status := false
            message := "Unsupported or corrupted image format"
            data := []
            diagnostic := [("hint", .vStr "Image format not recognized. Try PNG or JPG."),
                           ("trace", .vStr tb)] }
        else
          { status := false
            message := "Image validation failed: " ++ e.msg
            data := []
            diagnostic := [("hint", .vStr "Image might be partially corrupted or truncated."),
                           ("trace", .vStr tb)] }
      | .ok _ =>
        match seg (preprocess_image lib image_bytes) with
        | .hangs =>
          { status := false
            message := "Image processing exceeded time limit"
            data := []
            diagnostic := [("hint", .vStr "rembg may be stuck on complex background segmentation."),
                           ("suggestion", .vStr "Resize image below 1500px width before retrying."),
                           ("timeout_seconds", .vNat timeout_seconds)] }
        | .raises err =>
          { status := false
            message := "Background removal failed internally"
            data := []
            diagnostic := [("exception_type", .vStr err.ty),
                           ("error_message", .vStr err.msg),
                           ("trace", .vStr tb),
                           ("suggestion", .vStr "Ensure rembg is properly installed and the image is clear.")] }
        | .neither =>
          { status := false
            message := "Unknown background removal failure"
            data := []
            diagnostic := [("hint", .vStr "Unexpected internal state. Possibly rembg did not return output."),
                           ("trace", .vStr tb)] }
        | .returns out =>
          { status := true
            message := "Background removed successfully"
            data := postprocess_image lib out
            diagnostic := [("processing_time_seconds", .vNat elapsed),
                           ("image_format", .vStr img.format),
                           ("image_size_bytes", .vNat image_bytes.length),
                           ("hint", .vStr "Output returned as image bytes with enhanced edge quality.")] }

/-- `remove_bg_bytes` of the `utils1.py` variant (lines 14-131): same
pipeline without the pre/post-processing steps, budget 20 seconds, and
the raw engine output as the success payload. -/
def remove_bg_bytes1 (lib : ImgLib) (seg : List Nat → SegOutcome) (tb : String)
    (elapsed : Nat) (image_bytes : List Nat) : Response :=
  if image_bytes.length < 50 then
    { status := false
      message := "Invalid or empty image data"
      data := []
      diagnostic := [("hint", .vStr "Ensure you\u0027re sending a valid image file."),
                     ("received_size_bytes", .vNat image_bytes.length)] }
  else
    match lib.openImg image_bytes with
    | .error e =>
      if e.ty = "UnidentifiedImageError" then
        { status := false
          message := "Unsupported or corrupted image format"
          data := []
          diagnostic := [("hint", .vStr "Image format not recognized. Try PNG or JPG."),
                         ("trace", .vStr tb)] }
      else
        { status := false
          message := "Image validation failed: " ++ e.msg
          data := []
          diagnostic := [("hint", .vStr "Image might be partially corrupted or truncated."),
                         ("trace", .vStr tb)] }
    | .ok img =>
      match lib.verifyImg img with
      | .error e =>
        if e.ty = "UnidentifiedImageError" then
          { status := false
            message := "Unsupported or corrupted image format"
            data := []
            diagnostic := [("hint", .vStr "Image format not recognized. Try PNG or JPG."),
                           ("trace", .vStr tb)] }
        else
          { status := false
            message := "Image validation failed: " ++ e.msg
            data := []
            diagnostic := [("hint", .vStr "Image might be partially corrupted or truncated."),
                           ("trace", .vStr tb)] }
      | .ok _ =>
        match seg image_bytes with
        | .hangs =>
          { status := false
            message := "Image processing exceeded time limit"
            data := []
            diagnostic := [("hint", .vStr "rembg may be stuck on complex background segmentation."),
                           ("suggestion", .vStr "Resize image below 1500px width before retrying."),
                           ("timeout_seconds", .vNat timeout_seconds1)] }
        | .raises err =>
          { status := false
            message := "Background removal failed internally"
            data := []
            diagnostic := [("exception_type", .vStr err.ty),
                           ("error_message", .vStr err.msg),
                           ("trace", .vStr tb),
                           ("suggestion", .vStr "Ensure rembg is properly installed and the image is clear.")] }
        | .neither =>
          { status := false
            message := "Unknown background removal failure"
            data := []
            diagnostic := [("hint", .vStr "Unexpected internal state. Possibly rembg did not return output."),
                           ("trace", .vStr tb)] }
        | .returns out =>
          { status := true
            message := "Background removed successfully"
            data := out
            diagnostic := [("processing_time_seconds", .vNat elapsed),
                           ("image_format", .vStr img.format),
                           ("image_size_bytes", .vNat image_bytes.length),
                           ("hint", .vStr "Output returned as image bytes. Convert to file or Base64 if needed.")] }

/-- Persisted image record (`models.py`): `processed_filename`,
`processed_path` and `processed_at` are nullable; timestamps are
abstract `Nat` instants. -/
structure ImageFile where
  id : Nat
  original_filename : String
  original_path : String
  processed_filename : Option String
  processed_path : Option String
  status : String
  created_at : Nat
  processed_at : Option Nat
deriving DecidableEq, Repr

/-- `create_image_record` (crud.py lines 5-14): a fresh record with
status uploaded and the processed fields unset.  `id` and `created_at`
come from the database (primary key, server default `now()`) and are
parameters here; `db.add`, `commit` and `refresh` are persistence
plumbing with no effect on the record's fields. -/
def create_image_record (original_filename original_path : String)
    (id created_at : Nat) : ImageFile :=
  { id := id
    original_filename := original_filename
    original_path := original_path
    processed_filename := none
    processed_path := none
    status := "uploaded"
    created_at := created_at
    processed_at := none }

/-- `update_processing_started` (crud.py lines 16-20): unconditionally
sets status to processing and commits.  There is no check of the current
status. -/
def update_processing_started (img : ImageFile) : ImageFile :=
  { img with status := "processing" }

/-- `update_processing_done` (crud.py lines 22-29): unconditionally sets
the processed fields, the status and `processed_at` (`datetime.utcnow()`
abstracted as the parameter `now`). -/
def update_processing_done (img : ImageFile)
    (processed_filename processed_path : String) (now : Nat) : ImageFile :=
  { img with
    processed_filename := some processed_filename
    processed_path := some processed_path
    status := "done"
    processed_at := some now }

/-- `update_processing_failed` (crud.py lines 31-35): unconditionally
sets status to failed; the `error_msg` argument (default `None`) is
never read. -/
def update_processing_failed (img : ImageFile) (error_msg : Option String) : ImageFile :=
  { img with status := "failed" }

/-- Records reachable by a legal lifecycle sequence: `create`, then
`markProcessing` from uploaded, then `markDone` or `markFailed` from
processing (spec section 4.6). -/
inductive LegalReachable : ImageFile → Prop where
  | created (fn p : String) (id t : Nat) :
      LegalReachable (create_image_record fn p id t)
  | processing (r : ImageFile) (hr : LegalReachable r) (h : r.status = "uploaded") :
      LegalReachable (update_processing_started r)
  | done (r : ImageFile) (fn p : String) (t : Nat) (hr : LegalReachable r)
      (h : r.status = "processing") :
      LegalReachable (update_processing_done r fn p t)
  | failed (r : ImageFile) (m : Option String) (hr : LegalReachable r)
      (h : r.status = "processing") :
      LegalReachable (update_processing_failed r m)

/-- Concrete 60-byte payload standing for a small JPEG file: it opens
with the JPEG marker bytes 255, 216. -/
def sampleBytes : List Nat := 255 :: 216 :: List.replicate 58 0

/-- Decoded form of `sampleBytes`: an RGB image with no alpha channel,
detected format JPEG. -/
def sampleImg : Img :=
  { mode := "RGB", width := 4, height := 4, format := "JPEG", data := [1, 2, 3] }

/-- Concrete 35-byte payload with the GIF89a magic bytes 71, 73, 70, 56,
57, 97.  Complete GIF files of 35 bytes exist, below the 50-byte
validation threshold, and PIL decodes them. -/
def gifBytes : List Nat := [71, 73, 70, 56, 57, 97] ++ List.replicate 29 0

/-- Decoded form of `gifBytes`: a palette-mode 1x1 image, detected
format GIF. -/
def gifImg : Img :=
  { mode := "P", width := 1, height := 1, format := "GIF", data := [7] }

/-- Concrete image-library oracle: decodes exactly `sampleBytes` and
`gifBytes`; any other byte list fails to open with
`UnidentifiedImageError`, as PIL does on unrecognised data.  `savePNG`
prepends the PNG signature bytes 137, 80, 78, 71 to the pixel content:
every real PNG encoder output starts with this signature, so a PNG
re-encoding can never equal a JPEG or GIF input byte-for-byte. -/
def pil : ImgLib :=
  { openImg := fun bs =>
      if bs = sampleBytes then .ok sampleImg
      else if bs = gifBytes then .ok gifImg
      else .error { ty := "UnidentifiedImageError", msg := "cannot identify image file" }
    verifyImg := fun _ => .ok ()
    compositeWhite := fun i => { i with mode := "RGB" }
    convertRGB := fun i => { i with mode := "RGB" }
    resizeImg := fun i => .ok i
    enhanceContrast := fun i => i
    enhanceSharpness := fun i => i
    refineAlpha := fun i => .ok i
    savePNG := fun i => .ok (137 :: 80 :: 78 :: 71 :: i.data) }

/-- Image-library oracle whose `openImg` always raises, driving the
pre/post-processing bodies into their error branch. -/
def failLib : ImgLib :=
  { openImg := fun _ => .error { ty := "OSError", msg := "broken data stream" }
    verifyImg := fun _ => .ok ()
    compositeWhite := fun i => i
    convertRGB := fun i => i
    resizeImg := fun i => .ok i
    enhanceContrast := fun i => i
    enhanceSharpness := fun i => i
    refineAlpha := fun i => .ok i
    savePNG := fun i => .ok i.data }

/-- Segmentation capability that returns `sampleBytes` within budget. -/
def segReturnsSample : List Nat → SegOutcome := fun _ => .returns sampleBytes

/-- Segmentation capability that returns the empty byte string within
budget. -/
def segReturnsEmpty : List Nat → SegOutcome := fun _ => .returns []

/-- Segmentation capability still running when the budget elapses. -/
def segHangsFn : List Nat → SegOutcome := fun _ => .hangs

/-- Segmentation capability that raises a ValueError within budget. -/
def segRaisesFn : List Nat → SegOutcome :=
  fun _ => .raises { ty := "ValueError", msg := "bad input tensor" }

/-- Record in status done, reached by the legal sequence create,
markProcessing, markDone. -/
def doneRec : ImageFile :=
  update_processing_done
    (update_processing_started (create_image_record "a.png" "originals/a.png" 1 0))
    "bg_a.png" "processed/bg_a.png" 2

/-- C7: `preprocess_image` and `postprocess_image` never fail visibly:
both are total functions of their input (no exception reaches the
caller, mirroring the catch-all `except Exception` wrappers), and
whenever the body of either function signals an internal error the
function returns its original input bytes unchanged. -/
theorem c7_pre_post_degrade_to_original (lib : ImgLib) (b c : List Nat) (e f : PyErr) :
    (preprocess_core lib b = .error e → preprocess_image lib b = b) ∧
    (postprocess_core lib c = .error f → postprocess_image lib c = c) := by
  constructor
  · intro h
    unfold preprocess_image
    rw [h]
  · intro h
    unfold postprocess_image
    rw [h]

/-- Witness for C7: under the oracle whose `openImg` always raises, both
functions return their input unchanged. -/
theorem c7_witness_degrade :
    preprocess_image failLib [1, 2, 3] = [1, 2, 3] ∧
    postprocess_image failLib [9] = [9] :=
  ⟨(c7_pre_post_degrade_to_original failLib [1, 2, 3] [9]
      { ty := "OSError", msg := "broken data stream" }
      { ty := "OSError", msg := "broken data stream" }).1 rfl,
   (c7_pre_post_degrade_to_original failLib [1, 2, 3] [9]
      { ty := "OSError", msg := "broken data stream" }
      { ty := "OSError", msg := "broken data stream" }).2 rfl⟩

/-- C10: `update_processing_failed` ignores its `error_msg` argument:
for every record and every pair of error summaries the results coincide,
and the operation changes exactly the `status` field (to failed),
leaving every other field of the record unchanged; the data model
(`ImageFile`) has no field that could hold the summary. -/
theorem c10_markFailed_ignores_error_msg (r : ImageFile) (m m2 : Option String) :
    update_processing_failed r m = update_processing_failed r m2 ∧
    update_processing_failed r m = { r with status := "failed" } :=
  ⟨rfl, rfl⟩

/-- C5 counterexample: on a record already in status done (reached by a
legal create, markProcessing, markDone sequence), `markProcessing`
completes normally and overwrites the status with processing, and
`markDone` completes normally and rewrites the processed fields: the
source operations contain no status check and no failure path, so
neither call is rejected, contradicting the claim that transitions
outside the legal chains fail. -/
theorem c5_cex_no_transition_is_rejected :
    doneRec.status = "done" ∧
    update_processing_started doneRec = { doneRec with status := "processing" } ∧
    update_processing_done doneRec "other.png" "processed/other.png" 3 =
      { doneRec with
        processed_filename := some "other.png"
        processed_path := some "processed/other.png"
        processed_at := some 3 } :=
  ⟨rfl, rfl, by rfl⟩

/-- C5 (amended): the lifecycle operations perform no transition checks
at all: `markProcessing` unconditionally sets status to processing
whatever the current status, and `markDone` / `markFailed` likewise
overwrite their fields unconditionally, so transitions from done or
failed — in particular `markDone` on a record already done — are carried
out rather than rejected. -/
theorem c5_lifecycle_unconditional (r : ImageFile) (fn p : String) (t : Nat)
    (m : Option String) :
    update_processing_started r = { r with status := "processing" } ∧
    update_processing_done r fn p t =
      { r with
        processed_filename := some fn
        processed_path := some p
        status := "done"
        processed_at := some t } ∧
    update_processing_failed r m = { r with status := "failed" } :=
  ⟨rfl, rfl, rfl⟩

/-- Helper invariant for C8: along legal lifecycle sequences, a record
either is in status done with all processed fields set, or is not in
done with all processed fields unset. -/
theorem legal_processed_fields (r : ImageFile) (h : LegalReachable r) :
    (r.status = "done" ∧ r.processed_filename ≠ none ∧ r.processed_path ≠ none ∧
      r.processed_at ≠ none) ∨
    (r.status ≠ "done" ∧ r.processed_filename = none ∧ r.processed_path = none ∧
      r.processed_at = none) := by
  induction h with
  | created fn p id t =>
    right
    exact ⟨by simp [create_image_record], rfl, rfl, rfl⟩
  | processing r hr h ih =>
    rcases ih with ⟨hd, -, -, -⟩ | ⟨-, h1, h2, h3⟩
    · rw [h] at hd
      exact absurd hd (by decide)
    · right
      exact ⟨by simp [update_processing_started], h1, h2, h3⟩
  | done r fn p t hr h ih =>
    left
    refine ⟨rfl, ?_, ?_, ?_⟩ <;> simp [update_processing_done]
  | failed r m hr h ih =>
    rcases ih with ⟨hd, -, -, -⟩ | ⟨-, h1, h2, h3⟩
    · rw [h] at hd
      exact absurd hd (by decide)
    · right
      exact ⟨by simp [update_processing_failed], h1, h2, h3⟩

/-- C8: for every record produced by a legal sequence of the lifecycle
operations, the processed fields (`processed_filename`,
`processed_path`, `processed_at`) are set if and only if the status is
done; in particular a record that went through markFailed has all
processed fields null. -/
theorem c8_processed_fields_iff_done (r : ImageFile) (h : LegalReachable r) :
    (r.processed_filename ≠ none ∧ r.processed_path ≠ none ∧ r.processed_at ≠ none) ↔
      r.status = "done" := by
  rcases legal_processed_fields r h with ⟨hs, h1, h2, h3⟩ | ⟨hs, h1, h2, h3⟩
  · exact ⟨fun _ => hs, fun _ => ⟨h1, h2, h3⟩⟩
  · constructor
    · rintro ⟨hf, -, -⟩
      exact absurd h1 hf
    · intro hd
      exact absurd hd hs

/-- Witness for C8: the equivalence evaluated on a freshly created
record. -/
theorem c8_witness_created_record :
    ((create_image_record "a.png" "originals/a.png" 1 0).processed_filename ≠ none ∧
      (create_image_record "a.png" "originals/a.png" 1 0).processed_path ≠ none ∧
      (create_image_record "a.png" "originals/a.png" 1 0).processed_at ≠ none) ↔
      (create_image_record "a.png" "originals/a.png" 1 0).status = "done" :=
  c8_processed_fields_iff_done _ (LegalReachable.created "a.png" "originals/a.png" 1 0)

/-- C9 counterexample: `sampleBytes` decodes under the `pil` oracle to
the alpha-free image `sampleImg`, yet `postprocess_image` does not
return its input unchanged: the source re-encodes every successfully
opened image as an optimised PNG (utils.py line 91), and a PNG
re-encoding of a JPEG payload starts with the PNG signature, not the
JPEG marker. -/
theorem c9_cex_nonalpha_not_identity :
    pil.openImg sampleBytes = .ok sampleImg ∧
    sampleImg.mode ≠ "RGBA" ∧
    postprocess_image pil sampleBytes ≠ sampleBytes := by
  refine ⟨by rfl, by decide, ?_⟩
  intro h
  exact absurd h (by decide)

/-- C9 (amended): for every input whose decoded image carries no alpha
channel, `postprocess_image` skips the alpha refinement and returns the
lossless PNG re-encoding of the decoded image — the input bytes
themselves are returned only when that re-encoding happens to reproduce
them. -/
theorem c9_nonalpha_reencoded (lib : ImgLib) (b : List Nat) (img : Img) (out : List Nat)
    (hopen : lib.openImg b = .ok img) (hmode : img.mode ≠ "RGBA")
    (hsave : lib.savePNG img = .ok out) :
    postprocess_image lib b = out := by
  simp [postprocess_image, postprocess_core, hopen, hmode, hsave]

/-- Witness for C9: the non-alpha `sampleBytes` image post-processes to
its PNG re-encoding under the `pil` oracle. -/
theorem c9_witness_reencoded :
    postprocess_image pil sampleBytes = [137, 80, 78, 71, 1, 2, 3] :=
  c9_nonalpha_reencoded pil sampleBytes sampleImg [137, 80, 78, 71, 1, 2, 3]
    (by rfl) (by decide) (by rfl)

/-- C1 (amended): for every input payload, every image-library behaviour
and every behaviour of the segmentation capability (returning bytes,
raising, running past the budget, or finishing without recording an
outcome), `remove_bg_bytes` returns a structured result — it is total,
so no exception escapes the boundary — whose diagnostics map is always
present and non-empty, and whose payload is non-empty only if
`succeeded = true`: every failure path carries an empty payload.  (The
converse direction of the original claim fails: a success's payload is
the post-processed engine output and is empty when the engine returns
bytes that post-process to empty, see the counterexample.) -/
theorem c1_structured_total_response (lib : ImgLib) (seg : List Nat → SegOutcome)
    (tb : String) (elapsed : Nat) (image_bytes : List Nat) :
    (remove_bg_bytes lib seg tb elapsed image_bytes).diagnostic ≠ [] ∧
    ((remove_bg_bytes lib seg tb elapsed image_bytes).data ≠ [] →
      (remove_bg_bytes lib seg tb elapsed image_bytes).status = true) := by
  unfold remove_bg_bytes
  split
  · exact ⟨by simp, by simp⟩
  · split
    · split <;> exact ⟨by simp, by simp⟩
    · split
      · split <;> exact ⟨by simp, by simp⟩
      · split <;> exact ⟨by simp, by simp⟩

/-- C1 counterexample: a segmentation capability that returns the empty
byte string within budget drives `remove_bg_bytes` to a success whose
payload is empty (post-processing an empty byte string fails to open it
and degrades to the original empty bytes), so "payload non-empty iff
succeeded" fails left-to-right from succeeded. -/
theorem c1_cex_success_with_empty_payload :
    (remove_bg_bytes pil segReturnsEmpty "tb" 1 sampleBytes).status = true ∧
    (remove_bg_bytes pil segReturnsEmpty "tb" 1 sampleBytes).data = [] := by
  exact ⟨by rfl, by rfl⟩

/-- Witness for C1: a run with a non-empty payload, whose success flag
follows from the amended theorem. -/
theorem c1_witness_nonempty_payload :
    (remove_bg_bytes pil segReturnsSample "tb" 1 sampleBytes).status = true :=
  (c1_structured_total_response pil segReturnsSample "tb" 1 sampleBytes).2 (by decide)

/-- C2 (amended): for every byte payload of length at least 50 that
decodes and verifies as a valid image, and every segmentation capability
that returns a byte string within the budget without raising,
`remove_bg_bytes` succeeds with the source's success message, payload
equal to the post-processed form of the engine's output on the
preprocessed input, and diagnostics carrying the elapsed wall-clock
time, the detected input format and the original payload's byte length.
(The original claim omitted the length bound; see the counterexample for
a valid image below 50 bytes.) -/
theorem c2_success_path (lib : ImgLib) (seg : List Nat → SegOutcome) (tb : String)
    (elapsed : Nat) (image_bytes : List Nat) (img : Img) (out : List Nat)
    (hlen : 50 ≤ image_bytes.length)
    (hopen : lib.openImg image_bytes = .ok img)
    (hver : lib.verifyImg img = .ok ())
    (hseg : seg (preprocess_image lib image_bytes) = .returns out) :
    (remove_bg_bytes lib seg tb elapsed image_bytes).status = true ∧
    (remove_bg_bytes lib seg tb elapsed image_bytes).message =
      "Background removed successfully" ∧
    (remove_bg_bytes lib seg tb elapsed image_bytes).data = postprocess_image lib out ∧
    getDiag (remove_bg_bytes lib seg tb elapsed image_bytes).diagnostic
      "processing_time_seconds" = some (.vNat elapsed) ∧
    getDiag (remove_bg_bytes lib seg tb elapsed image_bytes).diagnostic
      "image_format" = some (.vStr img.format) ∧
    getDiag (remove_bg_bytes lib seg tb elapsed image_bytes).diagnostic
      "image_size_bytes" = some (.vNat image_bytes.length) := by
  have h50 : ¬ image_bytes.length < 50 := Nat.not_lt.mpr hlen
  simp [remove_bg_bytes, h50, hopen, hver, hseg, getDiag]

/-- C2 counterexample: `gifBytes` models a complete 35-byte GIF that the
image-library oracle decodes and verifies, and the capability returns
bytes within budget, yet `remove_bg_bytes` fails: the 50-byte size gate
(utils.py line 123) fires before decoding is attempted. -/
theorem c2_cex_small_valid_image :
    pil.openImg gifBytes = .ok gifImg ∧
    pil.verifyImg gifImg = .ok () ∧
    segReturnsSample (preprocess_image pil gifBytes) = .returns sampleBytes ∧
    (remove_bg_bytes pil segReturnsSample "tb" 0 gifBytes).status = false ∧
    (remove_bg_bytes pil segReturnsSample "tb" 0 gifBytes).message =
      "Invalid or empty image data" := by
  exact ⟨by rfl, rfl, rfl, by rfl, by rfl⟩

/-- Witness for C2: the success path evaluated under the concrete `pil`
oracle on the 60-byte sample payload. -/
theorem c2_witness_success :
    (remove_bg_bytes pil segReturnsSample "tb" 7 sampleBytes).status = true ∧
    (remove_bg_bytes pil segReturnsSample "tb" 7 sampleBytes).message =
      "Background removed successfully" ∧
    (remove_bg_bytes pil segReturnsSample "tb" 7 sampleBytes).data =
      postprocess_image pil sampleBytes ∧
    getDiag (remove_bg_bytes pil segReturnsSample "tb" 7 sampleBytes).diagnostic
      "processing_time_seconds" = some (.vNat 7) ∧
    getDiag (remove_bg_bytes pil segReturnsSample "tb" 7 sampleBytes).diagnostic
      "image_format" = some (.vStr "JPEG") ∧
    getDiag (remove_bg_bytes pil segReturnsSample "tb" 7 sampleBytes).diagnostic
      "image_size_bytes" = some (.vNat 60) :=
  c2_success_path pil segReturnsSample "tb" 7 sampleBytes sampleImg sampleBytes
    (by decide) (by rfl) rfl rfl

/-- C3: when the segmentation worker has not signalled completion as the
budget elapses (the thread is still alive after the timed join), both
pipeline variants return a failure whose message is the literal
"Image processing exceeded time limit" — spelled here as an append to
exhibit that it contains "time limit" — with
`diagnostics.timeout_seconds` equal to the configured budget (30 in
utils.py, 20 in utils1.py), and an empty payload: the returned response
is this fixed failure, so an engine output arriving after the timeout is
never returned as a success for that invocation. -/
theorem c3_timeout_path (lib : ImgLib) (seg seg2 : List Nat → SegOutcome) (tb : String)
    (elapsed : Nat) (image_bytes : List Nat) (img : Img)
    (hlen : 50 ≤ image_bytes.length)
    (hopen : lib.openImg image_bytes = .ok img)
    (hver : lib.verifyImg img = .ok ())
    (hseg : seg (preprocess_image lib image_bytes) = .hangs)
    (hseg2 : seg2 image_bytes = .hangs) :
    (remove_bg_bytes lib seg tb elapsed image_bytes).status = false ∧
    (remove_bg_bytes lib seg tb elapsed image_bytes).message =
      "Image processing exceeded " ++ "time limit" ∧
    getDiag (remove_bg_bytes lib seg tb elapsed image_bytes).diagnostic
      "timeout_seconds" = some (.vNat timeout_seconds) ∧
    timeout_seconds = 30 ∧
    (remove_bg_bytes lib seg tb elapsed image_bytes).data = [] ∧
    (remove_bg_bytes1 lib seg2 tb elapsed image_bytes).status = false ∧
    (remove_bg_bytes1 lib seg2 tb elapsed image_bytes).message =
      "Image processing exceeded " ++ "time limit" ∧
    getDiag (remove_bg_bytes1 lib seg2 tb elapsed image_bytes).diagnostic
      "timeout_seconds" = some (.vNat timeout_seconds1) ∧
    timeout_seconds1 = 20 ∧
    (remove_bg_bytes1 lib seg2 tb elapsed image_bytes).data = [] := by
  have h50 : ¬ image_bytes.length < 50 := Nat.not_lt.mpr hlen
  simp [remove_bg_bytes, remove_bg_bytes1, h50, hopen, hver, hseg, hseg2, getDiag,
    timeout_seconds, timeout_seconds1]

/-- Witness for C3: the timeout path evaluated under the concrete `pil`
oracle with a hanging capability. -/
theorem c3_witness_timeout :
    (remove_bg_bytes pil segHangsFn "tb" 0 sampleBytes).status = false ∧
    (remove_bg_bytes pil segHangsFn "tb" 0 sampleBytes).message =
      "Image processing exceeded " ++ "time limit" ∧
    getDiag (remove_bg_bytes pil segHangsFn "tb" 0 sampleBytes).diagnostic
      "timeout_seconds" = some (.vNat timeout_seconds) ∧
    timeout_seconds = 30 ∧
    (remove_bg_bytes pil segHangsFn "tb" 0 sampleBytes).data = [] ∧
    (remove_bg_bytes1 pil segHangsFn "tb" 0 sampleBytes).status = false ∧
    (remove_bg_bytes1 pil segHangsFn "tb" 0 sampleBytes).message =
      "Image processing exceeded " ++ "time limit" ∧
    getDiag (remove_bg_bytes1 pil segHangsFn "tb" 0 sampleBytes).diagnostic
      "timeout_seconds" = some (.vNat timeout_seconds1) ∧
    timeout_seconds1 = 20 ∧
    (remove_bg_bytes1 pil segHangsFn "tb" 0 sampleBytes).data = [] :=
  c3_timeout_path pil segHangsFn segHangsFn "tb" 0 sampleBytes sampleImg
    (by decide) (by rfl) rfl rfl rfl

/-- C4 (amended): when the segmentation capability raises within budget,
`remove_bg_bytes` fails with the message
"Background removal failed internally" (the source capitalises the
first word; the claim's all-lowercase quotation does not match, see the
counterexample), `diagnostics.error_message` equal to the raised error's
text and `diagnostics.exception_type` equal to its type name. -/
theorem c4_engine_error_path (lib : ImgLib) (seg : List Nat → SegOutcome) (tb : String)
    (elapsed : Nat) (image_bytes : List Nat) (img : Img) (err : PyErr)
    (hlen : 50 ≤ image_bytes.length)
    (hopen : lib.openImg image_bytes = .ok img)
    (hver : lib.verifyImg img = .ok ())
    (hseg : seg (preprocess_image lib image_bytes) = .raises err) :
    (remove_bg_bytes lib seg tb elapsed image_bytes).status = false ∧
    (remove_bg_bytes lib seg tb elapsed image_bytes).message =
      "Background removal failed internally" ∧
    getDiag (remove_bg_bytes lib seg tb elapsed image_bytes).diagnostic
      "error_message" = some (.vStr err.msg) ∧
    getDiag (remove_bg_bytes lib seg tb elapsed image_bytes).diagnostic
      "exception_type" = some (.vStr err.ty) := by
  have h50 : ¬ image_bytes.length < 50 := Nat.not_lt.mpr hlen
  simp [remove_bg_bytes, h50, hopen, hver, hseg, getDiag]

/-- C4 counterexample: on an engine error the failure diagnostics are as
claimed, but the message is "Background removal failed internally"
(utils.py line 195), which is not the claim's literal
"background removal failed internally". -/
theorem c4_cex_message_case :
    (remove_bg_bytes pil segRaisesFn "tb" 1 sampleBytes).status = false ∧
    getDiag (remove_bg_bytes pil segRaisesFn "tb" 1 sampleBytes).diagnostic
      "error_message" = some (.vStr "bad input tensor") ∧
    (remove_bg_bytes pil segRaisesFn "tb" 1 sampleBytes).message ≠
      "background removal failed internally" := by
  refine ⟨by rfl, by rfl, ?_⟩
  intro h
  exact absurd h (by decide)

/-- Witness for C4: the engine-error path evaluated under the concrete
`pil` oracle with a raising capability. -/
theorem c4_witness_engine_error :
    (remove_bg_bytes pil segRaisesFn "tb" 1 sampleBytes).status = false ∧
    (remove_bg_bytes pil segRaisesFn "tb" 1 sampleBytes).message =
      "Background removal failed internally" ∧
    getDiag (remove_bg_bytes pil segRaisesFn "tb" 1 sampleBytes).diagnostic
      "error_message" = some (.vStr "bad input tensor") ∧
    getDiag (remove_bg_bytes pil segRaisesFn "tb" 1 sampleBytes).diagnostic
      "exception_type" = some (.vStr "ValueError") :=
  c4_engine_error_path pil segRaisesFn "tb" 1 sampleBytes sampleImg
    { ty := "ValueError", msg := "bad input tensor" }
    (by decide) (by rfl) rfl rfl

/-- C6: every payload shorter than 50 bytes (including the empty one)
fails with the size-validation branch — message
"Invalid or empty image data", the realisation of the spec's
empty-or-too-small reason — with `diagnostics.received_size_bytes` equal
to the payload's actual length, and the result does not depend on the
segmentation capability (the worker is never started on this path): the
response is identical for any two capability behaviours.  This holds for
both pipeline variants. -/
theorem c6_short_payload_rejected (lib : ImgLib) (seg seg2 : List Nat → SegOutcome)
    (tb : String) (elapsed : Nat) (image_bytes : List Nat)
    (h : image_bytes.length < 50) :
    (remove_bg_bytes lib seg tb elapsed image_bytes).status = false ∧
    (remove_bg_bytes lib seg tb elapsed image_bytes).message =
      "Invalid or empty image data" ∧
    getDiag (remove_bg_bytes lib seg tb elapsed image_bytes).diagnostic
      "received_size_bytes" = some (.vNat image_bytes.length) ∧
    remove_bg_bytes lib seg tb elapsed image_bytes =
      remove_bg_bytes lib seg2 tb elapsed image_bytes ∧
    (remove_bg_bytes1 lib seg tb elapsed image_bytes).status = false ∧
    (remove_bg_bytes1 lib seg tb elapsed image_bytes).message =
      "Invalid or empty image data" ∧
    getDiag (remove_bg_bytes1 lib seg tb elapsed image_bytes).diagnostic
      "received_size_bytes" = some (.vNat image_bytes.length) ∧
    remove_bg_bytes1 lib seg tb elapsed image_bytes =
      remove_bg_bytes1 lib seg2 tb elapsed image_bytes := by
  simp [remove_bg_bytes, remove_bg_bytes1, h, getDiag]

/-- Witness for C6: the size gate evaluated on the empty payload and a
hanging capability against a returning one. -/
theorem c6_witness_empty_payload :
    (remove_bg_bytes pil segHangsFn "tb" 0 []).status = false ∧
    (remove_bg_bytes pil segHangsFn "tb" 0 []).message =
      "Invalid or empty image data" ∧
    getDiag (remove_bg_bytes pil segHangsFn "tb" 0 []).diagnostic
      "received_size_bytes" = some (.vNat 0) ∧
    remove_bg_bytes pil segHangsFn "tb" 0 [] =
      remove_bg_bytes pil segReturnsSample "tb" 0 [] ∧
    (remove_bg_bytes1 pil segHangsFn "tb" 0 []).status = false ∧
    (remove_bg_bytes1 pil segHangsFn "tb" 0 []).message =
      "Invalid or empty image data" ∧
    getDiag (remove_bg_bytes1 pil segHangsFn "tb" 0 []).diagnostic
      "received_size_bytes" = some (.vNat 0) ∧
    remove_bg_bytes1 pil segHangsFn "tb" 0 [] =
      remove_bg_bytes1 pil segReturnsSample "tb" 0 [] :=
  c6_short_payload_rejected pil segHangsFn segReturnsSample "tb" 0 [] (by decide)
